import Mathlib

/-!
Verification of the OODA-loop autonomous service (`src/ooda-service.ts`,
`src/resource-monitor.ts`) of the `plugin-autonomous` repository.

The TypeScript source is shallowly embedded: numeric values (relevances,
delays, metrics, resource percentages) are rationals, JavaScript truthiness
of strings/arrays is modelled where the source relies on it, and fallible
collaborator calls (providers, the task store) are `Except` values whose
`catch` handlers are explicit in the embedding.
-/

namespace OODA

/-- Task-slot usage inside a resource snapshot (`taskSlots: {used, total}`). -/
structure TaskSlots where
  used : Nat
  total : Nat
deriving DecidableEq, Repr

/-- Resource snapshot (`ResourceStatus` in `types.ts`, produced by
`getResourceStatus` / the resource monitor). `apiCalls` is irrelevant to the
claims and omitted from the payload. -/
structure ResourceStatus where
  cpu : ℚ
  memory : ℚ
  diskSpace : ℚ
  taskSlots : TaskSlots
deriving DecidableEq, Repr

/-- Observation type enum (`ObservationType` in `types.ts`, used by
`ooda-service.ts`). -/
inductive ObservationType where
  | EXTERNAL_EVENT
  | TASK_STATUS
  | SYSTEM_STATE
  | GOAL_PROGRESS
  | ERROR_OCCURRED
deriving DecidableEq, Repr

/-- A goal (`Goal` in `types.ts`): loaded at service start, mutated in place. -/
structure Goal where
  description : String
  priority : ℚ
  progress : ℚ
deriving DecidableEq, Repr

/-- A task from the task/backlog store, as consumed by `calculateTaskRelevance`
(`task.tags`, `task.createdAt`). -/
structure Task where
  tags : List String
  createdAt : ℚ
deriving DecidableEq, Repr

/-- Observation payload: `data` is `any` in the source; the loop stores the
provider result, the task, the resource snapshot or the goal there. -/
inductive ObservationData where
  | provider (name : String)
  | task (t : Task)
  | system (s : ResourceStatus)
  | goal (g : Goal)
deriving DecidableEq, Repr

/-- One observation record (timestamp omitted: no claim depends on it). -/
structure Observation where
  type : ObservationType
  source : String
  data : ObservationData
  relevance : ℚ
deriving DecidableEq, Repr

/-- `calculateProviderRelevance` (ooda-service.ts lines 386-397): static
per-provider priority table, default 0.5. -/
def calculateProviderRelevance (providerName : String) : ℚ :=
  if providerName = "AUTONOMOUS_FEED" then 0.9
  else if providerName = "DOCUMENTATION_RESEARCH_CONTEXT" then 0.8
  else if providerName = "GITHUB_ANALYSIS_CONTEXT" then 0.8
  else if providerName = "SYSTEM_HEALTH_CONTEXT" then 0.85
  else if providerName = "LEARNING_PATH_CONTEXT" then 0.7
  else 0.5

/-- `calculateTaskRelevance` (ooda-service.ts lines 423-437): base 0.5, tag
bonuses, age bonus, capped by `Math.min(relevance, 1)`. `now` is the
`Date.now()` value at observation time, in milliseconds. -/
def calculateTaskRelevance (task : Task) (now : ℚ) : ℚ :=
  let r : ℚ := 0.5
  let r := if task.tags.contains "urgent" then r + 0.3 else r
  let r := if task.tags.contains "high-priority" then r + 0.2 else r
  let r := if task.tags.contains "autonomous" then r + 0.1 else r
  let ageHours := (now - task.createdAt) / (1000 * 60 * 60)
  let r := if ageHours < 1 then r + 0.2 else if ageHours < 24 then r + 0.1 else r
  min r 1

/-- `calculateSystemRelevance` (ooda-service.ts lines 451-460): base 0.3 plus
constraint bonuses, capped by `Math.min(relevance, 1)`. -/
def calculateSystemRelevance (status : ResourceStatus) : ℚ :=
  let r : ℚ := 0.3
  let r := if status.cpu > 80 then r + 0.3 else r
  let r := if status.memory > 80 then r + 0.2 else r
  let r := if status.taskSlots.used ≥ status.taskSlots.total then r + 0.4 else r
  min r 1

/-- GOAL_PROGRESS relevance as computed inline in `observeGoalProgress`
(ooda-service.ts line 471): `0.6 + goal.priority / 10`, with no cap. -/
def goalProgressRelevance (goal : Goal) : ℚ :=
  0.6 + goal.priority / 10

/-- `observeGoalProgress` (ooda-service.ts lines 462-476): one GOAL_PROGRESS
observation per tracked goal. -/
def observeGoalProgress (goals : List Goal) : List Observation :=
  goals.map fun g =>
    { type := .GOAL_PROGRESS
      source := "goal_tracker"
      data := .goal g
      relevance := goalProgressRelevance g }

/-- `observeSystemState` (ooda-service.ts lines 439-449). -/
def observeSystemState (status : ResourceStatus) : Observation :=
  { type := .SYSTEM_STATE
    source := "system_monitor"
    data := .system status
    relevance := calculateSystemRelevance status }

example : calculateTaskRelevance ⟨["urgent", "high-priority", "autonomous"], 0⟩ 0 = 1 := by
  norm_num [calculateTaskRelevance, List.contains]

example : goalProgressRelevance ⟨"", 5, 0⟩ = 11/10 := by
  norm_num [goalProgressRelevance]

/-! ## The observe phase (`observe`, `observeTasks`) -/

/-- A registered provider as seen by `observe` (ooda-service.ts lines 337-360):
its name, its `private` flag, and the outcome of its `get` call. `Except.error`
models a thrown exception (caught and skipped by the inner `catch`);
`Except.ok b` models a normal return where `b` says whether
`result && (result.text || result.data)` is truthy. -/
structure Provider where
  name : String
  isPrivate : Bool
  result : Except Unit Bool
deriving Repr

/-- The provider-collection part of `observe` (ooda-service.ts lines 337-360):
providers are filtered by `!p.private || p.name === 'AUTONOMOUS_FEED'`; a
throwing provider, or one with no text/data, contributes no observation. -/
def observeProviders (providers : List Provider) : List Observation :=
  (providers.filter fun p => !p.isPrivate || p.name == "AUTONOMOUS_FEED").filterMap
    fun p =>
      match p.result with
      | .ok true =>
          some { type := .EXTERNAL_EVENT
                 source := p.name
                 data := .provider p.name
                 relevance := calculateProviderRelevance p.name }
      | .ok false => none
      | .error _ => none

/-- `observeTasks` (ooda-service.ts lines 399-421): the whole
`runtime.getTasks` query sits in a try/catch, so an absent or throwing task
store (`Except.error`) yields the empty observation list instead of
propagating. -/
def observeTasks (tasksResult : Except Unit (List Task)) (now : ℚ) : List Observation :=
  match tasksResult with
  | .ok tasks =>
      tasks.map fun t =>
        { type := .TASK_STATUS
          source := "task_system"
          data := .task t
          relevance := calculateTaskRelevance t now }
  | .error _ => []

/-- `observe` (ooda-service.ts lines 312-384), restricted to the observation
list it builds: provider observations, then task observations, then exactly
one system-state observation, then one goal-progress observation per goal. -/
def observe (providers : List Provider) (tasksResult : Except Unit (List Task))
    (status : ResourceStatus) (goals : List Goal) (now : ℚ) : List Observation :=
  observeProviders providers ++ observeTasks tasksResult now ++
    [observeSystemState status] ++ observeGoalProgress goals

/-! ## The orient phase (`orient`, `updateEnvironmentalFactors`) -/

/-- One environmental factor (timestamp omitted). -/
structure EnvFactor where
  type : String
  description : String
  impact : ℚ
deriving DecidableEq, Repr

/-- Insertion step for the relevance sort below; the element moves past
strictly less relevant entries, matching a stable descending sort by
`(a, b) => b.relevance - a.relevance`. -/
def insertByRelevance (o : Observation) : List Observation → List Observation
  | [] => [o]
  | x :: xs =>
      if o.relevance > x.relevance then o :: x :: xs
      else x :: insertByRelevance o xs

/-- Stable sort by descending relevance, as `observations.sort((a, b) =>
b.relevance - a.relevance)` in `orient`. -/
def sortByRelevanceDesc : List Observation → List Observation
  | [] => []
  | x :: xs => insertByRelevance x (sortByRelevanceDesc xs)

/-- `relevantObservations` of `orient` (ooda-service.ts lines 528-530): keep
observations with `relevance > 0.5`, sorted descending by relevance. -/
def orientRelevantObservations (observations : List Observation) : List Observation :=
  sortByRelevanceDesc (observations.filter fun o => o.relevance > 0.5)

/-- `updateEnvironmentalFactors` (ooda-service.ts lines 557-597): the factor
list is rebuilt from scratch; the first SYSTEM_STATE observation contributes a
`resource_constraint` factor when `cpu > 80` and a `capacity_limit` factor
when `taskSlots.used >= taskSlots.total`; more than two ERROR_OCCURRED
observations contribute an `error_surge` factor. -/
def updateEnvironmentalFactors (observations : List Observation) : List EnvFactor :=
  let systemFactors :=
    match observations.find? fun o => o.type == ObservationType.SYSTEM_STATE with
    | some obs =>
        match obs.data with
        | .system resources =>
            (if resources.cpu > 80 then
              [{ type := "resource_constraint"
                 description := "High CPU usage limiting concurrent operations"
                 impact := -0.5 }]
             else []) ++
            (if resources.taskSlots.used ≥ resources.taskSlots.total then
              [{ type := "capacity_limit"
                 description := "Maximum concurrent tasks reached"
                 impact := -0.8 }]
             else [])
        | _ => []
    | none => []
  let errorObs := observations.filter fun o => o.type == ObservationType.ERROR_OCCURRED
  systemFactors ++
    (if errorObs.length > 2 then
      [{ type := "error_surge"
         description := "errors detected in current cycle"
         impact := -0.7 }]
     else [])

/-- `isResourceConstrained` (resource-monitor.ts lines 159-165). -/
def isResourceConstrained (status : ResourceStatus) : Bool :=
  status.cpu > 80 || status.memory > 80 ||
    status.taskSlots.used ≥ status.taskSlots.total

/-! ## The decide phase (`decide`, ooda-service.ts lines 645-735) -/

/-- The result of `parseKeyValueXml` on one model reply: each field may be
absent. A `simple` key is also parsed; its truthiness is a `Bool` here. -/
structure ParsedXml where
  thought : Option String
  actions : Option (List String)
  providers : Option (List String)
  text : Option String
  simple : Bool
deriving DecidableEq, Repr

/-- The response content assembled by `decide` (ooda-service.ts lines 677-687). -/
structure Content where
  thought : String
  actions : List String
  providers : List String
  text : String
  simple : Bool
deriving DecidableEq, Repr

/-- Content construction from a successful parse (ooda-service.ts lines
677-687): `thought: parsedXml.thought || ''`, `actions: parsedXml.actions ||
['IGNORE']`, `providers: parsedXml.providers || []`, `text: parsedXml.text ||
''`, `simple: parsedXml.simple || false`. An absent field falls back to its
default; for `thought`/`text` the JavaScript empty string is falsy, which
coincides with the default. -/
def buildContent (p : ParsedXml) : Content :=
  { thought := p.thought.getD ""
    actions := p.actions.getD ["IGNORE"]
    providers := p.providers.getD []
    text := p.text.getD ""
    simple := p.simple }

/-- The retry condition `!responseContent?.thought || !responseContent?.actions`
(ooda-service.ts line 666): `responseContent` null, or its `thought` an empty
(falsy) string. Once built, `actions` is always a JavaScript array (truthy
even when empty), so the `actions` disjunct reduces to the null check. -/
def needsRetry : Option Content → Bool
  | none => true
  | some c => c.thought == ""

/-- The retry loop of `decide` (ooda-service.ts lines 662-697): while fewer
than 3 attempts have been made and the retry condition holds, invoke the model
once and fold its parse result into `responseContent` (a failed parse leaves
the previous content). `replies` lists the parse results of successive model
invocations; the returned `Nat` counts inference invocations actually made. -/
def decideAttempts : List (Option ParsedXml) → Nat → Option Content →
    Option Content × Nat
  | [], _, content => (content, 0)
  | r :: rest, retries, content =>
      if retries < 3 ∧ needsRetry content then
        let content' := match r with
          | some p => some (buildContent p)
          | none => content
        let (res, n) := decideAttempts rest (retries + 1) content'
        (res, n + 1)
      else (content, 0)

/-- JavaScript `toUpperCase()` as used on action names: per-character
uppercasing (action names here are ASCII). -/
def jsToUpperCase (s : String) : String :=
  ⟨s.data.map Char.toUpper⟩

/-- The simple-response test of `decide` (ooda-service.ts lines 703-706):
exactly one action, whose uppercasing is `REPLY`, and no requested providers. -/
def isSimpleContent (c : Content) : Bool :=
  c.actions.length == 1 && jsToUpperCase (c.actions.headD "") == "REPLY" &&
    c.providers.isEmpty

/-- The overwrite `responseContent.simple = isSimple` (ooda-service.ts line
708): the parsed `simple` flag is discarded and replaced by the computed
classification. -/
def decideFinalize (c : Content) : Content :=
  { c with simple := isSimpleContent c }

/-- `decide` after the retry loop (ooda-service.ts lines 699-734): when no
content was ever assembled the phase returns null content (and no response
message); otherwise the content is finalized with the computed `simple` flag. -/
def decideResult (replies : List (Option ParsedXml)) : Option Content × Nat :=
  let (content, n) := decideAttempts replies 0 none
  match content with
  | none => (none, n)
  | some c => (some (decideFinalize c), n)

/-- `decisionsPerCycle` as recorded by `decide` (ooda-service.ts line 726):
`responseContent?.actions?.length || 0`. -/
def decisionsPerCycleOf : Option Content → Nat
  | none => 0
  | some c => c.actions.length

/-! ## Cycle control flow after the decide phase
(`executeOODACycle`, ooda-service.ts lines 268-290) -/

/-- The calls `executeOODACycle` makes after `decide` returns. `actCall`
stands for the single `this.act(...)` invocation, which performs exactly one
`runtime.processActions` dispatch. -/
inductive CycleCall where
  | composeState
  | actCall
  | evaluateCall
  | reflectCall
deriving DecidableEq, Repr

/-- The post-decide segment of `executeOODACycle` (ooda-service.ts lines
268-290): recompose state when providers were requested; run the act phase
only when content exists and is not simple; always run the evaluator stage and
the reflection phase. -/
def cyclePhaseCalls (responseContent : Option Content) : List CycleCall :=
  (match responseContent with
   | some c => if c.providers.length ≠ 0 then [CycleCall.composeState] else []
   | none => []) ++
  (match responseContent with
   | some c => if ¬c.simple then [CycleCall.actCall] else []
   | none => []) ++
  [CycleCall.evaluateCall, CycleCall.reflectCall]

/-! ## The scheduler (`scheduleNextLoop` / `executeOODACycle` / `stop`) -/

/-- Scheduler-visible service state: the `isRunning` and `isLoopActive` flags,
the number of live cycle contexts (`currentContext` allocations not yet torn
down), and counters for started cycles and skipped-cycle warnings. -/
structure SchedulerState where
  isRunning : Bool
  isLoopActive : Bool
  liveContexts : Nat
  cyclesStarted : Nat
  skippedWarnings : Nat
deriving DecidableEq, Repr

/-- Events interleaved on the single JavaScript thread: a scheduled timer
firing (the `setTimeout` callback body of `scheduleNextLoop`, ooda-service.ts
lines 197-213), the teardown of a running cycle (the `finally` block of
`executeOODACycle`, lines 297-309), and `stop()` flipping the running flag
(line 949). -/
inductive SchedulerEvent where
  | timerFire
  | cycleFinish
  | stopSignal
deriving DecidableEq, Repr

/-- One scheduler step. A firing trigger first checks `isRunning`; with the
service running it starts a cycle (setting `isLoopActive` and allocating a
fresh cycle context) only when no cycle is active, otherwise it logs the
skipped-cycle warning and creates nothing. Teardown clears the flag and
releases the context. -/
def schedulerStep (s : SchedulerState) : SchedulerEvent → SchedulerState
  | .timerFire =>
      if ¬s.isRunning then s
      else if ¬s.isLoopActive then
        { s with isLoopActive := true
                 liveContexts := s.liveContexts + 1
                 cyclesStarted := s.cyclesStarted + 1 }
      else { s with skippedWarnings := s.skippedWarnings + 1 }
  | .cycleFinish =>
      if s.isLoopActive then
        { s with isLoopActive := false, liveContexts := s.liveContexts - 1 }
      else s
  | .stopSignal => { s with isRunning := false }

/-- Service state right after `initialize` armed the first cycle: running, no
cycle active, no context allocated. -/
def initialSchedulerState : SchedulerState :=
  { isRunning := true
    isLoopActive := false
    liveContexts := 0
    cyclesStarted := 0
    skippedWarnings := 0 }

/-- Run the scheduler over an event trace. -/
def schedulerRun (events : List SchedulerEvent) : SchedulerState :=
  events.foldl schedulerStep initialSchedulerState

/-! ## Configuration and adaptive strategies -/

/-- The mutable control parameters of the service (ooda-service.ts lines
49-52): concurrency cap, per-action timeout, base and minimum loop delay. -/
structure ServiceParams where
  maxConcurrentActions : ℤ
  actionTimeout : ℚ
  baseLoopDelay : ℚ
  minLoopDelay : ℚ
deriving DecidableEq, Repr

/-- Constructor defaults (ooda-service.ts lines 49-52). -/
def initialServiceParams : ServiceParams :=
  { maxConcurrentActions := 3
    actionTimeout := 60000
    baseLoopDelay := 5000
    minLoopDelay := 1000 }

/-- `loadConfiguration` (ooda-service.ts lines 134-156), with each optional
environment variable given as the integer `parseInt` produced (or `none` when
the variable is unset). The loop interval is floored at `minLoopDelay`; the
concurrency override is assigned with no clamping at all. -/
def loadConfiguration (loopInterval maxConcurrent actionTimeout : Option ℤ)
    (s : ServiceParams) : ServiceParams :=
  let s := match loopInterval with
    | some n => { s with baseLoopDelay := max (n : ℚ) s.minLoopDelay }
    | none => s
  let s := match maxConcurrent with
    | some n => { s with maxConcurrentActions := n }
    | none => s
  match actionTimeout with
  | some n => { s with actionTimeout := (n : ℚ) }
  | none => s

/-- Loop metrics (`LoopMetrics` in `types.ts`). -/
structure LoopMetrics where
  cycleTime : ℚ
  decisionsPerCycle : Nat
  actionSuccessRate : ℚ
  errorRate : ℚ
  resourceEfficiency : ℚ
  goalProgress : ℚ
deriving DecidableEq, Repr

/-- First half of `updateStrategies` (ooda-service.ts lines 865-874): adapt
the base loop delay from `decisionsPerCycle`. -/
def updateDelayStrategy (metrics : LoopMetrics) (s : ServiceParams) : ServiceParams :=
  if metrics.decisionsPerCycle = 0 then
    { s with baseLoopDelay := min 30000 (s.baseLoopDelay * 1.5) }
  else if metrics.decisionsPerCycle > 3 then
    { s with baseLoopDelay := max (s.minLoopDelay * 2) (s.baseLoopDelay * 0.8) }
  else s

/-- Second half of `updateStrategies` (ooda-service.ts lines 876-888): adapt
the concurrency cap from `actionSuccessRate` and `resourceEfficiency`. -/
def updateConcurrencyStrategy (metrics : LoopMetrics) (s : ServiceParams) : ServiceParams :=
  if metrics.actionSuccessRate < 0.5 ∧ s.maxConcurrentActions > 1 then
    { s with maxConcurrentActions := max 1 (s.maxConcurrentActions - 1) }
  else if metrics.actionSuccessRate > 0.9 ∧ metrics.resourceEfficiency > 0.7 then
    { s with maxConcurrentActions := min 5 (s.maxConcurrentActions + 1) }
  else s

/-- `updateStrategies` (ooda-service.ts lines 864-888): the delay adjustment
followed by the concurrency adjustment, in source order. -/
def updateStrategies (metrics : LoopMetrics) (s : ServiceParams) : ServiceParams :=
  updateConcurrencyStrategy metrics (updateDelayStrategy metrics s)

/-! ## Metric computation (`calculateMetrics` and helpers) -/

/-- `calculateResourceEfficiency` (ooda-service.ts lines 933-938). Its input
is `this.currentContext.metrics.cycleTime` — the cycle-time slot of the
metrics record currently stored on the context, not the elapsed time being
computed by the caller. -/
def calculateResourceEfficiency (storedCycleTime : ℚ) : ℚ :=
  let targetCycleTime : ℚ := 10000
  let efficiency := max 0 (1 - storedCycleTime / targetCycleTime)
  min efficiency 1

/-- `calculateAverageGoalProgress` (ooda-service.ts lines 940-945). -/
def calculateAverageGoalProgress (goals : List Goal) : ℚ :=
  if goals.length = 0 then 0
  else ((goals.map fun g => g.progress).sum) / (goals.length : ℚ)

/-- `calculateMetrics` (ooda-service.ts lines 912-931): `now - startTime` is
the fresh elapsed time, `errorCount` the length of the context error list,
`storedCycleTime` the `metrics.cycleTime` value sitting on the context when
the computation runs (0 from cycle initialization onwards). -/
def calculateMetrics (now startTime : ℚ) (errorCount decisions : Nat)
    (storedCycleTime : ℚ) (goals : List Goal) : LoopMetrics :=
  { cycleTime := now - startTime
    decisionsPerCycle := decisions
    actionSuccessRate := 0.8
    errorRate := (errorCount : ℚ) / max 1 (decisions : ℚ)
    resourceEfficiency := calculateResourceEfficiency storedCycleTime
    goalProgress := calculateAverageGoalProgress goals }

/-- Modelled from the spec (section 4.6): `resourceEfficiency =
clamp(1 − cycleTime/targetCycleTime, 0, 1)` with `targetCycleTime = 10000 ms`,
where `cycleTime` is the elapsed time of the current cycle. Stated separately
to compare with `calculateResourceEfficiency` as the code computes it. -/
def specResourceEfficiency (cycleTime : ℚ) : ℚ :=
  max 0 (min 1 (1 - cycleTime / 10000))

/-! ## Scheduler lemmas and claim C1 -/

/-- The cycle-context bookkeeping invariant: a context is allocated exactly
while the loop-active flag is set. -/
def schedulerInv (s : SchedulerState) : Prop :=
  s.liveContexts = if s.isLoopActive then 1 else 0

lemma schedulerStep_preserves_inv (s : SchedulerState) (e : SchedulerEvent)
    (h : schedulerInv s) : schedulerInv (schedulerStep s e) := by
  rcases s with ⟨run, act, live, started, skipped⟩
  cases e <;> cases run <;> cases act <;>
    simp_all [schedulerStep, schedulerInv]

lemma schedulerRun_inv (events : List SchedulerEvent) :
    schedulerInv (schedulerRun events) := by
  have general : ∀ (l : List SchedulerEvent) (s : SchedulerState),
      schedulerInv s → schedulerInv (l.foldl schedulerStep s) := by
    intro l
    induction l with
    | nil => intro s h; exact h
    | cons e rest ih =>
        intro s h
        exact ih (schedulerStep s e) (schedulerStep_preserves_inv s e h)
  exact general events initialSchedulerState rfl

/-- Claim C1: the scheduler never starts a second OODA cycle while one is
active. Along every event trace at most one cycle context is live; a trigger
that fires while the service is running and the loop-active flag is set
changes nothing except incrementing the skipped-cycle warning count (no new
context, no new cycle); a trigger firing with the flag clear sets the flag and
allocates the context (cycle start); cycle teardown always clears the flag. -/
theorem C1_single_active_cycle :
    (∀ events : List SchedulerEvent, (schedulerRun events).liveContexts ≤ 1) ∧
    (∀ s : SchedulerState, s.isRunning = true → s.isLoopActive = true →
        schedulerStep s SchedulerEvent.timerFire =
          { s with skippedWarnings := s.skippedWarnings + 1 }) ∧
    (∀ s : SchedulerState, s.isRunning = true → s.isLoopActive = false →
        (schedulerStep s SchedulerEvent.timerFire).isLoopActive = true ∧
        (schedulerStep s SchedulerEvent.timerFire).liveContexts = s.liveContexts + 1 ∧
        (schedulerStep s SchedulerEvent.timerFire).cyclesStarted = s.cyclesStarted + 1) ∧
    (∀ s : SchedulerState,
        (schedulerStep s SchedulerEvent.cycleFinish).isLoopActive = false) := by
  refine ⟨?_, ?_, ?_, ?_⟩
  · intro events
    have h := schedulerRun_inv events
    unfold schedulerInv at h
    rw [h]
    split <;> norm_num
  · intro s h1 h2
    simp [schedulerStep, h1, h2]
  · intro s h1 h2
    simp [schedulerStep, h1, h2]
  · intro s
    rcases s with ⟨run, act, live, started, skipped⟩
    cases act <;> simp [schedulerStep]

/-- Witness for C1: a trigger firing in a running, loop-active state with one
live context only increments the warning counter. -/
theorem C1_single_active_cycle_witness :
    schedulerStep ⟨true, true, 1, 4, 0⟩ SchedulerEvent.timerFire = ⟨true, true, 1, 4, 1⟩ := by
  have h := C1_single_active_cycle.2.1 ⟨true, true, 1, 4, 0⟩ rfl rfl
  simpa using h

/-! ## Relevance bounds and claim C2 -/

/-- Counterexample to claim C2 as stated: a tracked goal with priority 5 (a
valid `Goal` value; goals are loaded unclamped from character settings) gets
GOAL_PROGRESS relevance `0.6 + 5/10 = 1.1 > 1`. -/
theorem C2_relevance_counterexample :
    (observeGoalProgress [⟨"Learn and improve capabilities", 5, 0⟩]).map
        (fun o => o.relevance) = [11/10] ∧
    ¬((11 : ℚ)/10 ≤ 1) := by
  constructor
  · norm_num [observeGoalProgress, goalProgressRelevance]
  · norm_num

/-- Claim C2 amended: EXTERNAL_EVENT, TASK_STATUS and SYSTEM_STATE relevances
always lie in `[0, 1]` (the task and system scores are explicitly capped);
GOAL_PROGRESS relevance equals `0.6 + priority/10` with no cap, lies in
`[0, 1]` when `-6 ≤ priority ≤ 4` (which covers the default goal priorities 1,
2, 3 and the boost values 0.5 and 0.8), and exceeds 1 whenever
`priority > 4`. -/
theorem C2_relevance_bounds_amended :
    (∀ (t : Task) (now : ℚ),
        0 ≤ calculateTaskRelevance t now ∧ calculateTaskRelevance t now ≤ 1) ∧
    (∀ s : ResourceStatus,
        0 ≤ calculateSystemRelevance s ∧ calculateSystemRelevance s ≤ 1) ∧
    (∀ name : String,
        0 ≤ calculateProviderRelevance name ∧ calculateProviderRelevance name ≤ 1) ∧
    (∀ g : Goal, -6 ≤ g.priority → g.priority ≤ 4 →
        0 ≤ goalProgressRelevance g ∧ goalProgressRelevance g ≤ 1) ∧
    (∀ g : Goal, 4 < g.priority → 1 < goalProgressRelevance g) := by
  refine ⟨?_, ?_, ?_, ?_, ?_⟩
  · intro t now
    simp only [calculateTaskRelevance]
    split_ifs <;> constructor <;> norm_num [min_def]
  · intro s
    simp only [calculateSystemRelevance]
    split_ifs <;> constructor <;> norm_num [min_def]
  · intro name
    simp only [calculateProviderRelevance]
    split_ifs <;> norm_num
  · intro g hlo hhi
    unfold goalProgressRelevance
    constructor <;> linarith
  · intro g h
    unfold goalProgressRelevance
    linarith

/-- Witness for C2 amended: the bounds at a default goal of priority 1 and the
overflow at priority 5. -/
theorem C2_relevance_bounds_amended_witness :
    (0 ≤ goalProgressRelevance ⟨"Learn and improve capabilities", 1, 0⟩ ∧
      goalProgressRelevance ⟨"Learn and improve capabilities", 1, 0⟩ ≤ 1) ∧
    1 < goalProgressRelevance ⟨"Maintain system health and stability", 5, 0⟩ :=
  ⟨C2_relevance_bounds_amended.2.2.2.1 ⟨"Learn and improve capabilities", 1, 0⟩
      (by norm_num) (by norm_num),
   C2_relevance_bounds_amended.2.2.2.2 ⟨"Maintain system health and stability", 5, 0⟩
      (by norm_num)⟩

/-! ## Decide-phase retry behaviour and claim C3 -/

/-- Counterexample to claim C3 as stated: three consecutive unparseable
replies (`parseKeyValueXml` returning null each time) make exactly 3
inference invocations, but the phase then returns null response content — no
final decision exists at all, in particular none whose actions list is the
no-op default. -/
theorem C3_retry_counterexample :
    (decideResult [none, none, none]).2 = 3 ∧
    (decideResult [none, none, none]).1 = none ∧
    ¬∃ c : Content, (decideResult [none, none, none]).1 = some c ∧
        c.actions = ["IGNORE"] := by
  refine ⟨rfl, rfl, ?_⟩
  rintro ⟨c, hc, _⟩
  rw [show (decideResult [none, none, none]).1 = none from rfl] at hc
  exact Option.noConfusion hc

/-- Claim C3 amended: on 3 consecutive unparseable replies the decision phase
makes exactly 3 inference invocations and completes without throwing, but
yields no decision (null content, no response message, `decisionsPerCycle`
recorded as 0). The no-op default `IGNORE` is applied only when a reply
parses but lacks the `actions` field, in which case the assembled decision
carries `actions = [IGNORE]`. -/
theorem C3_retry_amended :
    decideResult [none, none, none] = (none, 3) ∧
    decisionsPerCycleOf (decideResult [none, none, none]).1 = 0 ∧
    decideResult [some ⟨some "thinking", none, none, none, false⟩] =
      (some { thought := "thinking", actions := ["IGNORE"], providers := [],
              text := "", simple := false }, 1) := by
  refine ⟨rfl, rfl, ?_⟩
  rfl

/-! ## Simple-response classification: claims C4 and C10 -/

/-- Claim C4: a decision is classified simple exactly when its actions list
has exactly one element that uppercases to the plain-reply action `REPLY` and
its providers list is empty; for a simple decision the cycle performs zero
act-phase dispatch calls while the evaluator stage still runs. -/
theorem C4_simple_classification :
    (∀ c : Content, (decideFinalize c).simple = true ↔
        (c.actions.length = 1 ∧ jsToUpperCase (c.actions.headD "") = "REPLY" ∧
          c.providers = [])) ∧
    (∀ c : Content, c.simple = true →
        (cyclePhaseCalls (some c)).count CycleCall.actCall = 0 ∧
        CycleCall.evaluateCall ∈ cyclePhaseCalls (some c)) := by
  constructor
  · intro c
    simp [decideFinalize, isSimpleContent, List.isEmpty_iff, and_assoc]
  · intro c h
    by_cases hp : c.providers.length = 0 <;>
      simp [cyclePhaseCalls, h, hp, List.count_append, List.count_cons]

/-- Witness for C4: a concrete simple decision makes zero dispatch calls and
still reaches the evaluator. -/
theorem C4_simple_classification_witness :
    (cyclePhaseCalls (some ⟨"t", ["REPLY"], [], "", true⟩)).count CycleCall.actCall = 0 ∧
    CycleCall.evaluateCall ∈ cyclePhaseCalls (some ⟨"t", ["REPLY"], [], "", true⟩) :=
  C4_simple_classification.2 ⟨"t", ["REPLY"], [], "", true⟩ rfl

/-- Claim C10: the model-emitted `simple` flag never influences the final
classification — the finalized decision's `simple` field is recomputed from
the parsed actions and providers alone, so two parsed replies differing only
in their `simple` field produce identical final content and identical cycle
control flow. -/
theorem C10_simple_flag_overwritten :
    ∀ (p : ParsedXml) (b : Bool),
      (decideFinalize (buildContent p)).simple = isSimpleContent (buildContent p) ∧
      decideFinalize (buildContent { p with simple := b }) =
        decideFinalize (buildContent p) ∧
      cyclePhaseCalls (some (decideFinalize (buildContent { p with simple := b }))) =
        cyclePhaseCalls (some (decideFinalize (buildContent p))) := by
  intro p b
  exact ⟨rfl, rfl, rfl⟩

/-! ## Adaptive delay lemmas and claim C5 -/

/-- The base-loop-delay update applied by a zero-decision cycle
(ooda-service.ts line 868). -/
def zeroDecisionDelayStep (d : ℚ) : ℚ :=
  min 30000 (d * 1.5)

lemma updateConcurrencyStrategy_baseLoopDelay (m : LoopMetrics) (s : ServiceParams) :
    (updateConcurrencyStrategy m s).baseLoopDelay = s.baseLoopDelay := by
  unfold updateConcurrencyStrategy
  split_ifs <;> rfl

lemma updateDelayStrategy_maxConcurrent (m : LoopMetrics) (s : ServiceParams) :
    (updateDelayStrategy m s).maxConcurrentActions = s.maxConcurrentActions := by
  unfold updateDelayStrategy
  split_ifs <;> rfl

lemma updateStrategies_delay_zero (m : LoopMetrics) (s : ServiceParams)
    (h : m.decisionsPerCycle = 0) :
    (updateStrategies m s).baseLoopDelay = zeroDecisionDelayStep s.baseLoopDelay := by
  unfold updateStrategies
  rw [updateConcurrencyStrategy_baseLoopDelay]
  unfold updateDelayStrategy
  rw [if_pos h]
  rfl

lemma updateStrategies_iterate_delay (m : LoopMetrics) (h : m.decisionsPerCycle = 0) :
    ∀ (n : ℕ) (s : ServiceParams),
      ((updateStrategies m)^[n] s).baseLoopDelay =
        zeroDecisionDelayStep^[n] s.baseLoopDelay := by
  intro n
  induction n with
  | zero => intro s; rfl
  | succ k ih =>
      intro s
      rw [Function.iterate_succ_apply, Function.iterate_succ_apply, ih,
        updateStrategies_delay_zero m s h]

lemma zeroDecisionDelayStep_le (d : ℚ) : zeroDecisionDelayStep d ≤ 30000 :=
  min_le_left _ _

lemma le_zeroDecisionDelayStep (d : ℚ) (h0 : 0 ≤ d) (h1 : d ≤ 30000) :
    d ≤ zeroDecisionDelayStep d := by
  unfold zeroDecisionDelayStep
  exact le_min h1 (by linarith)

lemma zeroDecisionDelayStep_nonneg (d : ℚ) (h0 : 0 ≤ d) :
    0 ≤ zeroDecisionDelayStep d := by
  unfold zeroDecisionDelayStep
  exact le_min (by norm_num) (by linarith)

lemma zeroDecisionDelayStep_iterate_nonneg (d : ℚ) (h0 : 0 ≤ d) :
    ∀ n : ℕ, 0 ≤ zeroDecisionDelayStep^[n] d := by
  intro n
  induction n with
  | zero => exact h0
  | succ k ih =>
      rw [Function.iterate_succ_apply']
      exact zeroDecisionDelayStep_nonneg _ ih

lemma zeroDecisionDelayStep_iterate_le (d : ℚ) (n : ℕ) :
    zeroDecisionDelayStep^[n + 1] d ≤ 30000 := by
  rw [Function.iterate_succ_apply']
  exact zeroDecisionDelayStep_le _

lemma zeroDecisionDelayStep_iterate_lower (d : ℚ) :
    ∀ n : ℕ, min 30000 ((3/2)^n * d) ≤ zeroDecisionDelayStep^[n] d := by
  intro n
  induction n with
  | zero =>
      have h := min_le_right (30000 : ℚ) d
      simp only [pow_zero, one_mul, Function.iterate_zero_apply]
      exact h
  | succ k ih =>
      rw [Function.iterate_succ_apply']
      have hx31 : ((3/2 : ℚ))^(k+1) * d = ((3/2 : ℚ))^k * d * (3/2) := by ring
      have hstep : zeroDecisionDelayStep (zeroDecisionDelayStep^[k] d) =
          min 30000 (zeroDecisionDelayStep^[k] d * (3/2)) := by
        unfold zeroDecisionDelayStep
        norm_num
      rw [hx31, hstep]
      rcases le_total (((3/2 : ℚ))^k * d) 30000 with hle | hgt
      · have hxy : ((3/2 : ℚ))^k * d ≤ zeroDecisionDelayStep^[k] d := by
          have h := ih
          rw [min_eq_right hle] at h
          exact h
        exact min_le_min le_rfl (by linarith)
      · have h30y : (30000 : ℚ) ≤ zeroDecisionDelayStep^[k] d := by
          have h := ih
          rw [min_eq_left hgt] at h
          exact h
        have h30 : (30000 : ℚ) ≤ zeroDecisionDelayStep^[k] d * (3/2) := by linarith
        calc min (30000 : ℚ) (((3/2 : ℚ))^k * d * (3/2)) ≤ 30000 := min_le_left _ _
          _ = min (30000 : ℚ) (zeroDecisionDelayStep^[k] d * (3/2)) :=
              (min_eq_left h30).symm

lemma zeroDecisionDelayStep_fixed : zeroDecisionDelayStep 30000 = 30000 := by
  unfold zeroDecisionDelayStep
  norm_num

lemma zeroDecisionDelayStep_converges (d : ℚ) (h : 1000 ≤ d) :
    ∀ n : ℕ, 9 ≤ n → zeroDecisionDelayStep^[n] d = 30000 := by
  have h0 : (0 : ℚ) ≤ d := by linarith
  have h9 : zeroDecisionDelayStep^[9] d = 30000 := by
    have hlow := zeroDecisionDelayStep_iterate_lower d 9
    have hbig : (30000 : ℚ) ≤ (3/2)^9 * d := by
      have : ((3/2 : ℚ))^9 * 1000 ≤ (3/2)^9 * d := by
        have hp : (0 : ℚ) ≤ (3/2)^9 := by positivity
        nlinarith
      nlinarith
    have hmin : min (30000 : ℚ) ((3/2)^9 * d) = 30000 := min_eq_left hbig
    have hup : zeroDecisionDelayStep^[9] d ≤ 30000 :=
      zeroDecisionDelayStep_iterate_le d 8
    rw [hmin] at hlow
    linarith
  intro n hn
  have hsplit : n = (n - 9) + 9 := by omega
  rw [hsplit, Function.iterate_add_apply, h9,
    Function.iterate_fixed zeroDecisionDelayStep_fixed]

/-- Claim C5: after every reflection the base loop delay follows the stated
update rule (zero decisions: `min 30000 (previous * 1.5)`; more than 3:
`max (2 * minLoopDelay) (previous * 0.8)`; otherwise unchanged); under
consecutive zero-decision cycles the post-reflection delay sequence is
monotonically non-decreasing, never exceeds 30000, and from any starting delay
of at least `minLoopDelay = 1000` it converges to and stays at 30000. -/
theorem C5_adaptive_delay :
    (∀ (m : LoopMetrics) (s : ServiceParams), m.decisionsPerCycle = 0 →
        (updateStrategies m s).baseLoopDelay = min 30000 (s.baseLoopDelay * 1.5)) ∧
    (∀ (m : LoopMetrics) (s : ServiceParams), 3 < m.decisionsPerCycle →
        (updateStrategies m s).baseLoopDelay =
          max (s.minLoopDelay * 2) (s.baseLoopDelay * 0.8)) ∧
    (∀ (m : LoopMetrics) (s : ServiceParams),
        m.decisionsPerCycle ≠ 0 → m.decisionsPerCycle ≤ 3 →
        (updateStrategies m s).baseLoopDelay = s.baseLoopDelay) ∧
    (∀ (m : LoopMetrics) (s : ServiceParams),
        m.decisionsPerCycle = 0 → 0 ≤ s.baseLoopDelay → ∀ n : ℕ,
        ((updateStrategies m)^[n + 1] s).baseLoopDelay ≤
          ((updateStrategies m)^[n + 2] s).baseLoopDelay ∧
        ((updateStrategies m)^[n + 1] s).baseLoopDelay ≤ 30000) ∧
    (∀ (m : LoopMetrics) (s : ServiceParams),
        m.decisionsPerCycle = 0 → 1000 ≤ s.baseLoopDelay → ∀ n : ℕ, 9 ≤ n →
        ((updateStrategies m)^[n] s).baseLoopDelay = 30000) := by
  refine ⟨?_, ?_, ?_, ?_, ?_⟩
  · intro m s h
    exact updateStrategies_delay_zero m s h
  · intro m s h
    unfold updateStrategies
    rw [updateConcurrencyStrategy_baseLoopDelay]
    unfold updateDelayStrategy
    rw [if_neg (by omega), if_pos h]
  · intro m s h1 h2
    unfold updateStrategies
    rw [updateConcurrencyStrategy_baseLoopDelay]
    unfold updateDelayStrategy
    rw [if_neg h1, if_neg (by omega)]
  · intro m s h h0 n
    rw [updateStrategies_iterate_delay m h, updateStrategies_iterate_delay m h]
    refine ⟨?_, zeroDecisionDelayStep_iterate_le _ _⟩
    have hx0 : 0 ≤ zeroDecisionDelayStep^[n + 1] s.baseLoopDelay :=
      zeroDecisionDelayStep_iterate_nonneg _ h0 _
    have hx1 : zeroDecisionDelayStep^[n + 1] s.baseLoopDelay ≤ 30000 :=
      zeroDecisionDelayStep_iterate_le _ _
    calc zeroDecisionDelayStep^[n + 1] s.baseLoopDelay
        ≤ zeroDecisionDelayStep (zeroDecisionDelayStep^[n + 1] s.baseLoopDelay) :=
          le_zeroDecisionDelayStep _ hx0 hx1
      _ = zeroDecisionDelayStep^[n + 2] s.baseLoopDelay :=
          (Function.iterate_succ_apply' _ _ _).symm
  · intro m s h h1000 n hn
    rw [updateStrategies_iterate_delay m h]
    exact zeroDecisionDelayStep_converges _ h1000 n hn

/-- Witness for C5: starting from the constructor default delay of 5000 ms, a
zero-decision cycle moves the delay to 7500 ms, and nine zero-decision cycles
reach the 30000 ms cap. -/
theorem C5_adaptive_delay_witness :
    (updateStrategies ⟨0, 0, 0, 0, 0, 0⟩ initialServiceParams).baseLoopDelay = 7500 ∧
    ((updateStrategies ⟨0, 0, 0, 0, 0, 0⟩)^[9] initialServiceParams).baseLoopDelay
      = 30000 := by
  constructor
  · have h := C5_adaptive_delay.1 ⟨0, 0, 0, 0, 0, 0⟩ initialServiceParams rfl
    rw [h]
    norm_num [initialServiceParams]
  · exact C5_adaptive_delay.2.2.2.2 ⟨0, 0, 0, 0, 0, 0⟩ initialServiceParams rfl
      (by norm_num [initialServiceParams]) 9 (by norm_num)

/-! ## Concurrency cap and claim C6 -/

lemma updateStrategies_maxConcurrent (m : LoopMetrics) (s : ServiceParams) :
    (updateStrategies m s).maxConcurrentActions =
      if m.actionSuccessRate < 0.5 ∧ s.maxConcurrentActions > 1 then
        max 1 (s.maxConcurrentActions - 1)
      else if m.actionSuccessRate > 0.9 ∧ m.resourceEfficiency > 0.7 then
        min 5 (s.maxConcurrentActions + 1)
      else s.maxConcurrentActions := by
  unfold updateStrategies updateConcurrencyStrategy
  rw [updateDelayStrategy_maxConcurrent]
  split_ifs <;> first | rfl | exact updateDelayStrategy_maxConcurrent m s

/-- Counterexample to claim C6 as stated: `loadConfiguration` assigns the
parsed `AUTONOMOUS_MAX_CONCURRENT` override with no clamping, so configuration
input 10 puts `maxConcurrentActions` outside `[1, 5]`; a subsequent
high-success reflection then jumps the cap from 10 straight to 5 — a move of
5 steps, not at most one. -/
theorem C6_concurrency_counterexample :
    (loadConfiguration none (some 10) none initialServiceParams).maxConcurrentActions
      = 10 ∧
    ¬((loadConfiguration none (some 10) none
        initialServiceParams).maxConcurrentActions ≤ 5) ∧
    (updateStrategies ⟨0, 1, 0.95, 0, 0.8, 0⟩
        (loadConfiguration none (some 10) none
          initialServiceParams)).maxConcurrentActions = 5 := by
  refine ⟨rfl, by norm_num [loadConfiguration, initialServiceParams], ?_⟩
  rw [updateStrategies_maxConcurrent]
  norm_num [loadConfiguration, initialServiceParams]

/-- Claim C6 amended: whenever the cap is already inside `[1, 5]` (as it is
with the constructor default 3 and absent any configuration override), each
reflection keeps it inside `[1, 5]` and moves it by at most one step —
decrementing only when `actionSuccessRate < 0.5` with the cap above 1,
incrementing only when `actionSuccessRate > 0.9` and
`resourceEfficiency > 0.7`; but the configuration loader installs the parsed
override unclamped, so configuration input can place the cap outside
`[1, 5]`. -/
theorem C6_concurrency_amended :
    ∀ (m : LoopMetrics) (s : ServiceParams),
      1 ≤ s.maxConcurrentActions → s.maxConcurrentActions ≤ 5 →
      1 ≤ (updateStrategies m s).maxConcurrentActions ∧
      (updateStrategies m s).maxConcurrentActions ≤ 5 ∧
      |(updateStrategies m s).maxConcurrentActions - s.maxConcurrentActions| ≤ 1 ∧
      ((updateStrategies m s).maxConcurrentActions < s.maxConcurrentActions →
        m.actionSuccessRate < 0.5 ∧ 1 < s.maxConcurrentActions) ∧
      (s.maxConcurrentActions < (updateStrategies m s).maxConcurrentActions →
        m.actionSuccessRate > 0.9 ∧ m.resourceEfficiency > 0.7) := by
  intro m s h1 h5
  rw [updateStrategies_maxConcurrent]
  split_ifs with hdec hinc
  · refine ⟨by omega, by omega, by rw [abs_le]; omega,
      fun _ => ⟨hdec.1, hdec.2⟩, fun hlt => ?_⟩
    omega
  · refine ⟨by omega, by omega, by rw [abs_le]; omega,
      fun hlt => ?_, fun _ => ⟨hinc.1, hinc.2⟩⟩
    omega
  · exact ⟨by omega, by omega, by rw [abs_le]; omega,
      fun hlt => absurd hlt (by omega), fun hlt => absurd hlt (by omega)⟩

/-- Witness for C6 amended: a low-success cycle moves the default cap 3 down
to 2, staying inside the bounds. -/
theorem C6_concurrency_amended_witness :
    1 ≤ (updateStrategies ⟨0, 1, 0.3, 0, 0, 0⟩
          initialServiceParams).maxConcurrentActions ∧
    (updateStrategies ⟨0, 1, 0.3, 0, 0, 0⟩
        initialServiceParams).maxConcurrentActions ≤ 5 ∧
    |(updateStrategies ⟨0, 1, 0.3, 0, 0, 0⟩
        initialServiceParams).maxConcurrentActions -
      initialServiceParams.maxConcurrentActions| ≤ 1 ∧
    ((updateStrategies ⟨0, 1, 0.3, 0, 0, 0⟩
        initialServiceParams).maxConcurrentActions <
        initialServiceParams.maxConcurrentActions →
      (0.3 : ℚ) < 0.5 ∧ 1 < initialServiceParams.maxConcurrentActions) ∧
    (initialServiceParams.maxConcurrentActions <
        (updateStrategies ⟨0, 1, 0.3, 0, 0, 0⟩
          initialServiceParams).maxConcurrentActions →
      (0.3 : ℚ) > 0.9 ∧ (0 : ℚ) > 0.7) :=
  C6_concurrency_amended ⟨0, 1, 0.3, 0, 0, 0⟩ initialServiceParams
    (by norm_num [initialServiceParams]) (by norm_num [initialServiceParams])

/-! ## Loop metrics and claim C7 -/

/-- Claim C7: `errorRate` and `goalProgress` follow the claimed formulas, but
`resourceEfficiency` is evaluated on the cycle-time slot stored in the
context's metrics record — which is still 0 whenever `calculateMetrics` runs,
because the freshly computed elapsed time is only assigned to the context
after the computation. Evaluated at a cycle whose elapsed time is 20000 ms:
the code reports `resourceEfficiency = 1` while the claimed formula
`clamp(1 - cycleTime/10000, 0, 1)` gives 0 for that elapsed time. -/
theorem C7_metrics_stale_cycle_time :
    (calculateMetrics 20000 0 2 4 0
        [⟨"a", 1, 1/2⟩, ⟨"b", 2, 1/4⟩]).cycleTime = 20000 ∧
    (calculateMetrics 20000 0 2 4 0
        [⟨"a", 1, 1/2⟩, ⟨"b", 2, 1/4⟩]).resourceEfficiency = 1 ∧
    specResourceEfficiency 20000 = 0 ∧
    (calculateMetrics 20000 0 2 4 0
        [⟨"a", 1, 1/2⟩, ⟨"b", 2, 1/4⟩]).errorRate = 1/2 ∧
    (calculateMetrics 20000 0 2 4 0
        [⟨"a", 1, 1/2⟩, ⟨"b", 2, 1/4⟩]).goalProgress = 3/8 := by
  refine ⟨by norm_num [calculateMetrics], ?_, ?_, ?_, ?_⟩
  · norm_num [calculateMetrics, calculateResourceEfficiency]
  · norm_num [specResourceEfficiency]
  · norm_num [calculateMetrics]
  · norm_num [calculateMetrics, calculateAverageGoalProgress]

/-! ## Constrained-snapshot scenario: claim C8 -/

/-- Claim C8: for a cycle whose SYSTEM_STATE observation carries the snapshot
`cpu = 95, memory = 50, taskSlots = {used: 3, total: 3}`, the orientation
phase (relevance filter, descending sort, factor rebuild) emits both a
`resource_constraint` and a `capacity_limit` factor, and the resource
monitor's constraint query on that snapshot reports true. -/
theorem C8_constrained_snapshot :
    (updateEnvironmentalFactors (orientRelevantObservations
        [observeSystemState ⟨95, 50, 70, ⟨3, 3⟩⟩])).map (fun f => f.type) =
      ["resource_constraint", "capacity_limit"] ∧
    isResourceConstrained ⟨95, 50, 70, ⟨3, 3⟩⟩ = true := by
  have hrel : calculateSystemRelevance ⟨95, 50, 70, ⟨3, 3⟩⟩ = 1 := by
    norm_num [calculateSystemRelevance]
  have hfilter : orientRelevantObservations
      [observeSystemState ⟨95, 50, 70, ⟨3, 3⟩⟩] =
      [observeSystemState ⟨95, 50, 70, ⟨3, 3⟩⟩] := by
    norm_num [orientRelevantObservations, sortByRelevanceDesc, insertByRelevance,
      List.filter_cons, observeSystemState, hrel]
  have hfind : (List.find? (fun o => o.type == ObservationType.SYSTEM_STATE)
      [observeSystemState ⟨95, 50, 70, ⟨3, 3⟩⟩]) =
      some (observeSystemState ⟨95, 50, 70, ⟨3, 3⟩⟩) := rfl
  constructor
  · rw [hfilter]
    norm_num [updateEnvironmentalFactors, hfind, observeSystemState,
      List.filter_cons]
    simp
  · norm_num [isResourceConstrained]

/-! ## Graceful degradation of the observe phase: claim C9 -/

lemma observeProviders_type (ps : List Provider) :
    ∀ o ∈ observeProviders ps, o.type = ObservationType.EXTERNAL_EVENT := by
  intro o ho
  unfold observeProviders at ho
  rw [List.mem_filterMap] at ho
  obtain ⟨p, _, hp⟩ := ho
  rcases hres : p.result with u | b
  · rw [hres] at hp
    exact Option.noConfusion hp
  · rw [hres] at hp
    cases b
    · exact Option.noConfusion hp
    · cases hp
      rfl

/-- Claim C9: with the task store absent or throwing (its query modelled as
`Except.error`, which `observeTasks` catches into an empty list), the observe
phase still completes: the collected observation list contains exactly one
SYSTEM_STATE observation and exactly one GOAL_PROGRESS observation per
tracked goal; moreover a throwing provider is skipped without affecting the
rest of the collection. -/
theorem C9_graceful_degradation :
    ∀ (providers : List Provider) (status : ResourceStatus) (goals : List Goal)
      (now : ℚ),
      ((observe providers (Except.error ()) status goals now).countP
          (fun o => o.type == ObservationType.SYSTEM_STATE)) = 1 ∧
      ((observe providers (Except.error ()) status goals now).countP
          (fun o => o.type == ObservationType.GOAL_PROGRESS)) = goals.length ∧
      (∀ p : Provider, p.result = Except.error () →
        observeProviders (p :: providers) = observeProviders providers) := by
  intro providers status goals now
  have hprov : ∀ t : ObservationType, t ≠ ObservationType.EXTERNAL_EVENT →
      (observeProviders providers).countP (fun o => o.type == t) = 0 := by
    intro t ht
    rw [List.countP_eq_zero]
    intro o ho
    rw [observeProviders_type providers o ho]
    simp only [beq_iff_eq]
    exact fun hh => ht hh.symm
  have hgoal_len : (observeGoalProgress goals).countP
      (fun o => o.type == ObservationType.GOAL_PROGRESS) = goals.length := by
    unfold observeGoalProgress
    rw [List.countP_map]
    exact List.countP_eq_length.2 fun a _ => rfl
  have hgoal_sys : (observeGoalProgress goals).countP
      (fun o => o.type == ObservationType.SYSTEM_STATE) = 0 := by
    unfold observeGoalProgress
    rw [List.countP_map]
    exact List.countP_eq_zero.2 fun a _ => by simp
  have htasks : observeTasks (Except.error ()) now = [] := rfl
  have hsys_one : List.countP (fun o => o.type == ObservationType.SYSTEM_STATE)
      [observeSystemState status] = 1 := rfl
  have hsys_zero : List.countP (fun o => o.type == ObservationType.GOAL_PROGRESS)
      [observeSystemState status] = 0 := rfl
  refine ⟨?_, ?_, ?_⟩
  · unfold observe
    rw [List.countP_append, List.countP_append, List.countP_append,
      hprov _ (by decide), htasks, hgoal_sys, hsys_one]
    simp
  · unfold observe
    rw [List.countP_append, List.countP_append, List.countP_append,
      hprov _ (by decide), htasks, hgoal_len, hsys_zero]
    simp
  · intro p hp
    unfold observeProviders
    rw [List.filter_cons]
    cases hfb : (!p.isPrivate || p.name == "AUTONOMOUS_FEED") with
    | false => simp [hfb]
    | true => simp [hfb, List.filterMap_cons, hp]

/-- Witness for C9: with no providers, a throwing task store, the placeholder
resource snapshot and one default goal, collection still yields one
SYSTEM_STATE and one GOAL_PROGRESS observation, and a throwing provider is
dropped from provider collection. -/
theorem C9_graceful_degradation_witness :
    ((observe [] (Except.error ()) ⟨50, 40, 70, ⟨0, 3⟩⟩
        [⟨"Learn and improve capabilities", 1, 0⟩] 0).countP
      (fun o => o.type == ObservationType.SYSTEM_STATE)) = 1 ∧
    ((observe [] (Except.error ()) ⟨50, 40, 70, ⟨0, 3⟩⟩
        [⟨"Learn and improve capabilities", 1, 0⟩] 0).countP
      (fun o => o.type == ObservationType.GOAL_PROGRESS)) =
        [(⟨"Learn and improve capabilities", 1, 0⟩ : Goal)].length ∧
    observeProviders [⟨"BROKEN", false, Except.error ()⟩] = observeProviders [] := by
  have h := C9_graceful_degradation [] ⟨50, 40, 70, ⟨0, 3⟩⟩
    [⟨"Learn and improve capabilities", 1, 0⟩] 0
  exact ⟨h.1, h.2.1, h.2.2 ⟨"BROKEN", false, Except.error ()⟩ rfl⟩

end OODA
